import Mathlib

/-
Verification of the interaction-response payload logic of the mapih library
(src/api/discord/interactions.js).  JavaScript objects with optional keys are
modelled as Lean structures with Option-valued fields (a `none` field stands
for an absent key, which JSON.stringify drops).  The HTTP transport, the
`isValidMedia` predicate, the remote media fetch and the `extendPayload`
post-processing step are external collaborators and are passed in as explicit
oracle arguments.  Every operation returns, besides its result, the final
state of the caller-supplied input object (the source mutates it in place)
and the ordered list of network requests it dispatched.
-/

namespace Interactions

/-- A JavaScript attachment `file` value: either a binary Buffer or a string. -/
inductive FileVal
  | buf (data : List Nat)
  | str (s : String)
deriving DecidableEq, Repr

/-- An entry of a caller-supplied `attachments` array. `id` only appears on the
reference records that `sendAttachment` rewrites the array into. -/
structure Attachment where
  id : Option Nat := none
  file : Option FileVal := none
  url : Option String := none
  filename : Option String := none
  description : Option String := none
deriving DecidableEq, Repr

/-- Opaque stand-in for a message component object; passed through verbatim. -/
structure Component where
  cid : Nat
deriving DecidableEq, Repr

/-- Opaque stand-in for an `allowed_mentions` object; passed through verbatim. -/
structure AllowedMentions where
  tag : Nat
deriving DecidableEq, Repr

/-- The `image` / `thumbnail` sub-object of an embed. -/
structure EmbedImage where
  url : Option String := none
deriving DecidableEq, Repr

/-- The `author` sub-object of an embed. -/
structure EmbedAuthor where
  name : Option String := none
  icon_url : Option String := none
  url : Option String := none
deriving DecidableEq, Repr

/-- The `footer` sub-object of an embed. -/
structure EmbedFooter where
  text : Option String := none
  icon_url : Option String := none
deriving DecidableEq, Repr

/-- One entry of an embed's `fields` array; passed through verbatim. -/
structure EmbedField where
  name : String
  value : String
deriving DecidableEq, Repr

/-- A Discord embed as handled by the merge logic (interactions.js 367-385). -/
structure Embed where
  title : Option String := none
  description : Option String := none
  color : Option Nat := none
  url : Option String := none
  timestamp : Option String := none
  image : Option EmbedImage := none
  thumbnail : Option EmbedImage := none
  author : Option EmbedAuthor := none
  footer : Option EmbedFooter := none
  fields : Option (List EmbedField) := none
deriving DecidableEq, Repr

/-- The previously stored message fetched before an edit; used only as a
fallback source. -/
structure Message where
  content : Option String := none
  embeds : Option (List Embed) := none
  components : Option (List Component) := none
  attachments : Option (List Attachment) := none
deriving DecidableEq, Repr

/-- Caller-supplied input object of the interaction operations. -/
structure Payload where
  ephemeral : Option Bool := none
  flags : Option Nat := none
  content : Option String := none
  embeds : Option (List Embed) := none
  components : Option (List Component) := none
  attachments : Option (List Attachment) := none
  tts : Option Bool := none
  allowed_mentions : Option AllowedMentions := none
  thread_name : Option String := none
  return_date : Option Bool := none
deriving DecidableEq, Repr

/-- Response headers; only `date` is read by the library. -/
structure Headers where
  date : Option String := none
deriving DecidableEq, Repr

/-- An HTTP response as delivered by the `https` transport adapter. -/
structure HttpResp where
  statusCode : Nat
  headers : Option Headers := none
  body : String := ""
deriving DecidableEq, Repr

/-- Abstract transport-level error (network failure or thrown HTTP error). -/
structure TErr where
  code : Nat
deriving DecidableEq, Repr

/-- Validation errors thrown by `sendAttachment` before the multipart call. -/
inductive SAErr
  | missingProps
  | invalidFileType
deriving DecidableEq, Repr

/-- Errors an operation can raise to its caller. -/
inductive Err
  | validation (e : SAErr)
  | transport (e : TErr)
  | httpStatus (code : Nat) (body : String)
  | nullDeref
deriving DecidableEq, Repr

/-- Body of the followup-create POST (interactions.js 516-525). -/
structure CreateBody where
  content : String
  embeds : List Embed
  components : List Component
  tts : Bool
  allowed_mentions : Option AllowedMentions
  thread_name : Option String
  flags : Nat
  attachments : List Attachment
deriving DecidableEq, Repr

/-- Body of the edit-style PATCH (interactions.js 365-389 and 579-603).  The
object literal in the source carries no `flags` key, so `flags` is `none`;
the field is kept so that the presence of a flags key can be compared across
body shapes. -/
structure EditBody where
  content : Option String
  embeds : List Embed
  components : List Component
  allowed_mentions : Option AllowedMentions
  attachments : List Attachment
  flags : Option Nat
deriving DecidableEq, Repr

/-- The `payload_json` envelope of a multipart request: `'data'` mode wraps
`{type, data: params}`, any other mode strips `attachments` and wraps
`{data: params}`. -/
inductive PayloadEnvelope
  | typed (tp : Option Nat) (data : Payload)
  | plain (data : Payload)
deriving DecidableEq, Repr

/-- A multipart request: the `files[i]` form fields plus the JSON envelope. -/
structure MultipartReq where
  formFiles : List (Nat × Option FileVal × Option String)
  payload : PayloadEnvelope
deriving DecidableEq, Repr

/-- One network request dispatched by an operation, in order. -/
inductive NetEvent
  | mediaFetch (u : String)
  | multipart (req : MultipartReq)
  | getMsg
  | patchMsg (b : EditBody)
  | postCallback (tp : Nat) (d : Payload)
  | postFollowup (b : CreateBody)
deriving DecidableEq, Repr

/-- Result of `sendAttachment`: the early-return on a falsy attachments key,
success (with the response data, the processed attachment list, the final
mutated params and the multipart request), or an error. -/
inductive SAOutcome
  | nullNoAttach
  | ok (m : Message) (processed : List Attachment) (finalParams : Payload) (req : MultipartReq)
  | err (e : Err)
deriving DecidableEq, Repr

/-- Return value of `callback.reply`: `true` or the response date header. -/
inductive ReplyRet
  | rtrue
  | rdate (d : Option String)
deriving DecidableEq, Repr

/-- Return value of `handleCallbacks`: the date header or the response body. -/
inductive HCRet
  | date (d : Option String)
  | payload (b : String)
deriving DecidableEq, Repr

/-- Return value of `callback.component_update`. -/
inductive CURet
  | nullResult
  | fromAttachment (m : Message)
  | fromCallback (h : HCRet)
deriving DecidableEq, Repr

deriving instance DecidableEq for Except

/-- Outcome of one operation: its result, the final state of the caller's
input object, and the network requests dispatched in order. -/
structure OpResult (ρ : Type) where
  result : Except Err ρ
  finalInput : Payload
  events : List NetEvent
deriving DecidableEq

/-- JavaScript nullish coalescing `a ?? b`. -/
def jsOr {α : Type} : Option α → Option α → Option α
  | some a, _ => some a
  | none, b => b

/-- Truthiness of an optional boolean (absent means falsy). -/
def truthy (o : Option Bool) : Bool := o.getD false

/-- Truthiness of an optional string: absent and the empty string are falsy. -/
def strTruthy : Option String → Bool
  | none => false
  | some s => !s.isEmpty

/-- Truthiness of an attachment `file` value: absent and the empty string are
falsy, a Buffer is always truthy. -/
def fileTruthy : Option FileVal → Bool
  | none => false
  | some (FileVal.str s) => !s.isEmpty
  | some (FileVal.buf _) => true

/-- The guard `input.attachments && input.attachments.length`. -/
def hasAttachments (p : Payload) : Bool :=
  match p.attachments with
  | some l => !l.isEmpty
  | none => false

/-- The optional chain `e.image?.url`. -/
def imageUrl (e : Embed) : Option String := e.image.bind EmbedImage.url

/-- The optional chain `e.thumbnail?.url`. -/
def thumbUrl (e : Embed) : Option String := e.thumbnail.bind EmbedImage.url

/-- The optional chain `e.author?.name`. -/
def authorName (e : Embed) : Option String := e.author.bind EmbedAuthor.name

/-- The optional chain `e.author?.icon_url`. -/
def authorIcon (e : Embed) : Option String := e.author.bind EmbedAuthor.icon_url

/-- The optional chain `e.author?.url`. -/
def authorUrl (e : Embed) : Option String := e.author.bind EmbedAuthor.url

/-- The optional chain `e.footer?.text`. -/
def footerText (e : Embed) : Option String := e.footer.bind EmbedFooter.text

/-- The optional chain `e.footer?.icon_url`. -/
def footerIcon (e : Embed) : Option String := e.footer.bind EmbedFooter.icon_url

/-- The zero-width-space placeholder written by `followup.create`. -/
def zwsp : String := "\u200B"

/-- The footer half of the embed fixup (interactions.js 506-507): an embed
with a footer icon but empty or missing footer text gets the zero-width-space
placeholder written into its footer text. -/
def footerFix (e : Embed) : Embed :=
  match e.footer with
  | some fo =>
    if strTruthy fo.icon_url && !strTruthy fo.text then
      { e with footer := some { fo with text := some zwsp } }
    else e
  | none => e

/-- The author half of the embed fixup (interactions.js 508-509): an embed
with an author icon but empty or missing author name gets the
zero-width-space placeholder written into its author name. -/
def authorFix (e : Embed) : Embed :=
  match e.author with
  | some au =>
    if strTruthy au.icon_url && !strTruthy au.name then
      { e with author := some { au with name := some zwsp } }
    else e
  | none => e

/-- The embed fixup of `followup.create` (interactions.js 505-510): the
footer rule followed by the author rule, run on one embed. -/
def fixEmbed (e : Embed) : Embed := authorFix (footerFix e)

/-- The in-place fixup loop of `followup.create` (interactions.js 504-511),
run only when the embeds array is present and non-empty. -/
def applyEmbedFix (input : Payload) : Payload :=
  match input.embeds with
  | some (e :: r) => { input with embeds := some ((e :: r).map fixEmbed) }
  | _ => input

/-- One sub-field of the merged embed: the caller's first embed's value with
`??`-fallback to the existing message's first embed (interactions.js 368-384). -/
def mergeField {α : Type} (g : Embed → Option α) (embed m0 : Option Embed) : Option α :=
  jsOr (embed.bind g) (m0.bind g)

/-- The merged embed object built by the edit-style operations
(interactions.js 367-385 and 581-599): every sub-field falls back with `??`
from the caller's first embed to the existing message's first embed. -/
def mergeEmbed (embed : Option Embed) (m0 : Option Embed) : Embed :=
  { title := mergeField Embed.title embed m0
    description := mergeField Embed.description embed m0
    color := mergeField Embed.color embed m0
    url := mergeField Embed.url embed m0
    timestamp := mergeField Embed.timestamp embed m0
    image := some { url := mergeField imageUrl embed m0 }
    thumbnail := some { url := mergeField thumbUrl embed m0 }
    author := some
      { name := mergeField authorName embed m0
        icon_url := mergeField authorIcon embed m0
        url := mergeField authorUrl embed m0 }
    footer := some
      { text := mergeField footerText embed m0
        icon_url := mergeField footerIcon embed m0 }
    fields := mergeField Embed.fields embed m0 }

/-- The PATCH body of the edit-style operations (interactions.js 365-389,
identically 579-603). -/
def editBody (input : Payload) (message : Message) : EditBody :=
  let embed := input.embeds.bind List.head?
  let m0 := message.embeds.bind List.head?
  { content := jsOr input.content message.content
    embeds :=
      match input.embeds with
      | some [] => []
      | _ => [mergeEmbed embed m0]
    components :=
      match input.components with
      | some [] => []
      | _ => message.components.getD []
    allowed_mentions := input.allowed_mentions
    attachments := (jsOr input.attachments message.attachments).getD []
    flags := none }

/-- The POST body of `followup.create` (interactions.js 516-525), built after
the embed fixup has run. -/
def createBody (input : Payload) (fl : Nat) : CreateBody :=
  { content := input.content.getD ""
    embeds :=
      match input.embeds with
      | some (e :: r) => e :: r
      | _ => []
    components :=
      match input.components with
      | some (c :: r) => c :: r
      | _ => []
    tts := truthy input.tts
    allowed_mentions := input.allowed_mentions
    thread_name := input.thread_name
    flags := fl
    attachments := input.attachments.getD [] }

/-- The validation guard of the `sendAttachment` loop (interactions.js 648):
`(!attachment.file && !attachment.url) || !attachment.filename`. -/
def invalidAtt (a : Attachment) : Bool :=
  (!fileTruthy a.file && !strTruthy a.url) || !strTruthy a.filename

/-- One iteration of the `sendAttachment` validation-and-fetch loop
(interactions.js 647-661): validate, then fetch a valid-media string file as
a binary buffer, else require an existing Buffer. -/
def procAtt (vm : Option FileVal → Bool) (f : String → List Nat) (a : Attachment) :
    Except SAErr Attachment × List NetEvent :=
  if invalidAtt a then (Except.error SAErr.missingProps, [])
  else if vm a.file then
    match a.file with
    | some (FileVal.str s) =>
      (Except.ok { a with file := some (FileVal.buf (f s)) }, [NetEvent.mediaFetch s])
    | _ => (Except.ok a, [])
  else
    match a.file with
    | some (FileVal.buf _) => (Except.ok a, [])
    | _ => (Except.error SAErr.invalidFileType, [])

/-- The transformation `procAtt` applies to an attachment that passes all
checks: a valid-media string file is replaced by the fetched buffer. -/
def procOk (vm : Option FileVal → Bool) (f : String → List Nat) (a : Attachment) : Attachment :=
  if vm a.file then
    match a.file with
    | some (FileVal.str s) => { a with file := some (FileVal.buf (f s)) }
    | _ => a
  else a

/-- The whole validation-and-fetch loop, processing attachments in array
order and stopping at the first error; media fetches that already happened
stay recorded. -/
def processAttachments (vm : Option FileVal → Bool) (f : String → List Nat) :
    List Attachment → Except SAErr (List Attachment) × List NetEvent
  | [] => (Except.ok [], [])
  | a :: rest =>
    match procAtt vm f a with
    | (Except.error e, evs) => (Except.error e, evs)
    | (Except.ok a1, evs) =>
      match processAttachments vm f rest with
      | (Except.error e, evs2) => (Except.error e, evs ++ evs2)
      | (Except.ok rest1, evs2) => (Except.ok (a1 :: rest1), evs ++ evs2)

/-- Index-aware map, used for the `files[i]` form fields and the attachment
reference records. -/
def mapIdxFrom {α β : Type} (n : Nat) (g : Nat → α → β) : List α → List β
  | [] => []
  | a :: r => g n a :: mapIdxFrom (n + 1) g r

/-- The reference record `{id: index, filename, description: description ?? ''}`
that `sendAttachment` rewrites each attachment into (interactions.js 672-674). -/
def refRecord (i : Nat) (a : Attachment) : Attachment :=
  { id := some i, file := none, url := none, filename := a.filename
    description := some (a.description.getD "") }

/-- The rewritten attachments array of `sendAttachment`. -/
def refRecords (l : List Attachment) : List Attachment :=
  mapIdxFrom 0 refRecord l

/-- The in-place rewrite of the caller's params performed after the loop:
`params.flags = flags` and the attachments array replaced by reference
records (interactions.js 666 and 672-674). -/
def finalParamsFor (params : Payload) (fl : Nat) (processed : List Attachment) : Payload :=
  { params with flags := some fl, attachments := some (refRecords processed) }

/-- The multipart request assembled by `sendAttachment`: `files[i]` fields in
array order, and the `payload_json` envelope, whose shape depends on the
sender mode (interactions.js 663-693). -/
def multipartReqFor (sender : String) (params : Payload) (tp : Option Nat) (fl : Nat)
    (processed : List Attachment) : MultipartReq :=
  { formFiles := mapIdxFrom 0 (fun i a => (i, a.file, a.filename)) processed
    payload :=
      if sender = "data" then PayloadEnvelope.typed tp (finalParamsFor params fl processed)
      else PayloadEnvelope.plain { finalParamsFor params fl processed with attachments := none } }

/-- Model of `sendAttachment` (interactions.js 640-747): early null return on
a falsy attachments key, the validation-and-fetch loop, the `files[i]` form
fields, the in-place rewrite `params.flags = flags` and
`params.attachments = refRecords`, the sender-dependent `payload_json`
envelope, and the multipart call whose response is the `mres` oracle. -/
def sendAttachmentModel (vm : Option FileVal → Bool) (f : String → List Nat)
    (mres : Except TErr Message) (sender : String) (params : Payload)
    (tp : Option Nat) (fl : Nat) : SAOutcome × List NetEvent :=
  match params.attachments with
  | none => (SAOutcome.nullNoAttach, [])
  | some atts =>
    match processAttachments vm f atts with
    | (Except.error e, evs) => (SAOutcome.err (Err.validation e), evs)
    | (Except.ok processed, evs) =>
      match mres with
      | Except.error e =>
        (SAOutcome.err (Err.transport e),
          evs ++ [NetEvent.multipart (multipartReqFor sender params tp fl processed)])
      | Except.ok m =>
        (SAOutcome.ok m processed (finalParamsFor params fl processed)
            (multipartReqFor sender params tp fl processed),
          evs ++ [NetEvent.multipart (multipartReqFor sender params tp fl processed)])

/-- Model of the `handleCallbacks` response unwrapping (interactions.js
759-788): 2xx yields the date header or the response body, anything else is
raised. -/
def handleCallbacks (r : HttpResp) (return_date : Bool) : Except String HCRet :=
  if 200 ≤ r.statusCode && r.statusCode < 300 then
    if return_date then Except.ok (HCRet.date (r.headers.bind Headers.date))
    else Except.ok (HCRet.payload r.body)
  else Except.error r.body

/-- Model of `callback.get_original` (interactions.js 92-102): any failure of
the fetch is swallowed and converted to `none`; success runs `extendPayload`. -/
def get_original (extend : Message → Message) (getRes : Except TErr Message) :
    Option Message × List NetEvent :=
  match getRes with
  | Except.ok m => (some (extend m), [NetEvent.getMsg])
  | Except.error _ => (none, [NetEvent.getMsg])

/-- The in-place mutation `input.flags = input.ephemeral ? (1 << 6) : 0`
performed by `callback.reply` and `callback.component_update`. -/
def withFlags (input : Payload) : Payload :=
  { input with flags := some (if truthy input.ephemeral then 64 else 0) }

/-- Model of `callback.reply` (interactions.js 135-164): `input.flags` is
overwritten in place from `ephemeral`, then either the multipart path or a
single JSON POST whose non-204 response raises.  The response data of the
attachment path carries no headers field, so that path returns `true`. -/
def reply (vm : Option FileVal → Bool) (f : String → List Nat)
    (mres : Except TErr Message) (resp : HttpResp) (input : Payload) :
    OpResult ReplyRet :=
  if hasAttachments (withFlags input) then
    match sendAttachmentModel vm f mres "data" (withFlags input) (some 4)
        ((withFlags input).flags.getD 0) with
    | (SAOutcome.ok _ _ fp _, evs) => ⟨Except.ok ReplyRet.rtrue, fp, evs⟩
    | (SAOutcome.err e, evs) => ⟨Except.error e, withFlags input, evs⟩
    | (SAOutcome.nullNoAttach, evs) => ⟨Except.error Err.nullDeref, withFlags input, evs⟩
  else
    { result :=
        if resp.statusCode ≠ 204 then
          Except.error (Err.httpStatus resp.statusCode resp.body)
        else if resp.headers.isSome && truthy (withFlags input).return_date then
          Except.ok (ReplyRet.rdate (resp.headers.bind Headers.date))
        else Except.ok ReplyRet.rtrue
      finalInput := withFlags input
      events := [NetEvent.postCallback 4 (withFlags input)] }

/-- Model of `callback.component_update` (interactions.js 265-278):
`input.flags` is overwritten in place, then the multipart path or a type-7
callback POST handled by `handleCallbacks`. -/
def component_update (vm : Option FileVal → Bool) (f : String → List Nat)
    (mres : Except TErr Message) (resp : HttpResp) (input : Payload) :
    OpResult CURet :=
  if hasAttachments (withFlags input) then
    match sendAttachmentModel vm f mres "data" (withFlags input) (some 7)
        ((withFlags input).flags.getD 0) with
    | (SAOutcome.ok m _ fp _, evs) => ⟨Except.ok (CURet.fromAttachment m), fp, evs⟩
    | (SAOutcome.err e, evs) => ⟨Except.error e, withFlags input, evs⟩
    | (SAOutcome.nullNoAttach, evs) => ⟨Except.ok CURet.nullResult, withFlags input, evs⟩
  else
    { result :=
        match handleCallbacks resp false with
        | Except.ok h => Except.ok (CURet.fromCallback h)
        | Except.error s => Except.error (Err.httpStatus resp.statusCode s)
      finalInput := withFlags input
      events := [NetEvent.postCallback 7 (withFlags input)] }

/-- Model of `callback.edit_original` (interactions.js 346-393): the
attachment path calls `sendAttachment` with flags 0; otherwise the GET of the
existing message is wrapped in try/catch and a missing message yields `none`
without a PATCH, while the PATCH itself sends `editBody` and propagates its
errors. -/
def edit_original (vm : Option FileVal → Bool) (f : String → List Nat)
    (mres : Except TErr Message) (extend : Message → Message)
    (getRes : Except TErr Message) (patchRes : Except TErr Message)
    (input : Payload) : OpResult (Option Message) :=
  if hasAttachments input then
    match sendAttachmentModel vm f mres "body" input none 0 with
    | (SAOutcome.ok m _ fp _, evs) => ⟨Except.ok (some m), fp, evs⟩
    | (SAOutcome.err e, evs) => ⟨Except.error e, input, evs⟩
    | (SAOutcome.nullNoAttach, evs) => ⟨Except.ok none, input, evs⟩
  else
    match getRes with
    | Except.error _ => ⟨Except.ok none, input, [NetEvent.getMsg]⟩
    | Except.ok message =>
      { result :=
          match patchRes with
          | Except.ok m => Except.ok (some (extend m))
          | Except.error e => Except.error (Err.transport e)
        finalInput := input
        events := [NetEvent.getMsg, NetEvent.patchMsg (editBody input message)] }

/-- Model of `followup.create` (interactions.js 497-529): flags from
`ephemeral`, then the multipart path or the embed fixup followed by a POST of
`createBody`. -/
def followup_create (vm : Option FileVal → Bool) (f : String → List Nat)
    (mres : Except TErr Message) (extend : Message → Message)
    (postRes : Except TErr Message) (input : Payload) : OpResult (Option Message) :=
  let fl := if truthy input.ephemeral then 64 else 0
  if hasAttachments input then
    match sendAttachmentModel vm f mres "body" input none fl with
    | (SAOutcome.ok m _ fp _, evs) => ⟨Except.ok (some m), fp, evs⟩
    | (SAOutcome.err e, evs) => ⟨Except.error e, input, evs⟩
    | (SAOutcome.nullNoAttach, evs) => ⟨Except.ok none, input, evs⟩
  else
    let input1 := applyEmbedFix input
    { result :=
        match postRes with
        | Except.ok m => Except.ok (some (extend m))
        | Except.error e => Except.error (Err.transport e)
      finalInput := input1
      events := [NetEvent.postFollowup (createBody input1 fl)] }

/-- Model of `followup.edit` (interactions.js 562-607): flags from
`ephemeral` (used only by the attachment path), then either the multipart
path or a GET (whose failure propagates, unlike `edit_original`) followed by
a PATCH of `editBody`. -/
def followup_edit (vm : Option FileVal → Bool) (f : String → List Nat)
    (mres : Except TErr Message) (extend : Message → Message)
    (getRes : Except TErr Message) (patchRes : Except TErr Message)
    (input : Payload) : OpResult (Option Message) :=
  let fl := if truthy input.ephemeral then 64 else 0
  if hasAttachments input then
    match sendAttachmentModel vm f mres "body" input none fl with
    | (SAOutcome.ok m _ fp _, evs) => ⟨Except.ok (some m), fp, evs⟩
    | (SAOutcome.err e, evs) => ⟨Except.error e, input, evs⟩
    | (SAOutcome.nullNoAttach, evs) => ⟨Except.ok none, input, evs⟩
  else
    match getRes with
    | Except.error e => ⟨Except.error (Err.transport e), input, [NetEvent.getMsg]⟩
    | Except.ok message =>
      { result :=
          match patchRes with
          | Except.ok m => Except.ok (some (extend m))
          | Except.error e => Except.error (Err.transport e)
        finalInput := input
        events := [NetEvent.getMsg, NetEvent.patchMsg (editBody input message)] }

/-- Media-check oracle that rejects everything. -/
def vmFalse : Option FileVal → Bool := fun _ => false

/-- Media-check oracle that accepts exactly string file values. -/
def vmStr : Option FileVal → Bool := fun v =>
  match v with
  | some (FileVal.str _) => true
  | _ => false

/-- Media-fetch oracle returning a fixed one-byte buffer. -/
def fConst : String → List Nat := fun _ => [7]

/-- A failing transport response. -/
def mresErr : Except TErr Message := Except.error ⟨0⟩

/-- A sample existing message. -/
def msg0 : Message := { content := some "old" }

/-- A succeeding transport response delivering `msg0`. -/
def mresOk : Except TErr Message := Except.ok msg0

/-- A 204 response with a date header. -/
def resp204 : HttpResp := { statusCode := 204, headers := some { date := some "D" } }

/-- Sample edit input carrying a non-empty components array. -/
def w1Input : Payload := { components := some [⟨1⟩] , content := some "c" }

/-- Sample edit input carrying an explicit empty components array. -/
def w1EmptyInput : Payload := { components := some [] }

/-- Sample edit input with the embeds key omitted. -/
def c2Input : Payload := { content := some "x" }

/-- Existing message with two embeds, for the embeds-omitted counterexample. -/
def c2Msg : Message :=
  { embeds := some [{ title := some "first" }, { title := some "second" }] }

/-- Sample caller embed supplying some sub-fields and omitting others. -/
def e3 : Embed := { title := some "new title", color := some 5 }

/-- Existing message whose first embed has every simple sub-field set. -/
def msg3 : Message :=
  { embeds := some [{ title := some "t0", description := some "d0", color := some 7
                      url := some "u0", timestamp := some "ts0"
                      image := some { url := some "i0" }
                      thumbnail := some { url := some "th0" }
                      author := some { name := some "an0", icon_url := some "ai0", url := some "au0" }
                      footer := some { text := some "ft0", icon_url := some "fi0" }
                      fields := some [{ name := "n", value := "v" }] }] }

/-- Sample edit input supplying one embed. -/
def c3Input : Payload := { embeds := some [e3] }

/-- Ephemeral no-attachment input for the flags counterexample. -/
def c4Input : Payload := { ephemeral := some true, content := some "x" }

/-- An embed with an icon-only footer. -/
def c8Embed : Embed := { footer := some { icon_url := some "x" } }

/-- Reply input carrying an icon-only-footer embed. -/
def c8Input : Payload := { embeds := some [c8Embed] }

/-- Followup-create input carrying an icon-only-footer embed. -/
def c8CreateInput : Payload := { embeds := some [c8Embed] }

/-- The scenario input of the reply scenario claim. -/
def c9Input : Payload := { ephemeral := some true, content := some "hi" }

/-- The data object the claim says is sent: only content and flags. -/
def c9Claimed : Payload := { content := some "hi", flags := some 64 }

/-- The data object the code actually sends: ephemeral is still present. -/
def c9Sent : Payload := { ephemeral := some true, content := some "hi", flags := some 64 }

/-- An attachment with a URL string file, for the mutation witness. -/
def c10Att : Attachment := { file := some (FileVal.str "u"), filename := some "f.png" }

/-- Params holding one URL attachment, for the mutation witness. -/
def c10Params : Payload := { attachments := some [c10Att] }

/-- The processed attachment list: the file replaced by the fetched buffer. -/
def c10Proc : List Attachment := [{ c10Att with file := some (FileVal.buf [7]) }]

/-- The final mutated params: flags written, attachments rewritten to
reference records. -/
def c10Fp : Payload := { c10Params with flags := some 5, attachments := some (refRecords c10Proc) }

/-- The multipart request of the mutation witness. -/
def c10Req : MultipartReq :=
  { formFiles := [(0, some (FileVal.buf [7]), some "f.png")]
    payload := PayloadEnvelope.plain { c10Fp with attachments := none } }

/-- An empty input object. -/
def w7Input : Payload := {}

theorem jsOr_isSome {α : Type} (a b : Option α) (h : a.isSome = true) : jsOr a b = a := by
  cases a
  · simp at h
  · rfl

theorem jsOr_none_left {α : Type} (b : Option α) : jsOr none b = b := rfl

theorem edit_original_events_ok (vm : Option FileVal → Bool) (f : String → List Nat)
    (mres : Except TErr Message) (extend : Message → Message)
    (patchRes : Except TErr Message) (input : Payload) (message : Message)
    (hat : hasAttachments input = false) :
    (edit_original vm f mres extend (Except.ok message) patchRes input).events
      = [NetEvent.getMsg, NetEvent.patchMsg (editBody input message)] := by
  unfold edit_original
  rw [hat]
  rfl

theorem followup_edit_events_ok (vm : Option FileVal → Bool) (f : String → List Nat)
    (mres : Except TErr Message) (extend : Message → Message)
    (patchRes : Except TErr Message) (input : Payload) (message : Message)
    (hat : hasAttachments input = false) :
    (followup_edit vm f mres extend (Except.ok message) patchRes input).events
      = [NetEvent.getMsg, NetEvent.patchMsg (editBody input message)] := by
  unfold followup_edit
  rw [hat]
  rfl

/-- C1: in the non-attachment path of both edit-style operations the PATCH
body's components is the empty sequence exactly when the caller passed an
explicit empty components array, and in every other case (components omitted
or caller-supplied non-empty) it is the previously fetched message's
components, or empty if the message has none; caller-supplied non-empty
components never reach the sent body. -/
theorem edit_components_fallback
    (vm : Option FileVal → Bool) (f : String → List Nat) (mres : Except TErr Message)
    (extend : Message → Message) (patchRes : Except TErr Message)
    (input : Payload) (message : Message)
    (hat : hasAttachments input = false) :
    ((edit_original vm f mres extend (Except.ok message) patchRes input).events
        = [NetEvent.getMsg, NetEvent.patchMsg (editBody input message)]) ∧
    ((followup_edit vm f mres extend (Except.ok message) patchRes input).events
        = [NetEvent.getMsg, NetEvent.patchMsg (editBody input message)]) ∧
    (input.components = some [] → (editBody input message).components = []) ∧
    (input.components ≠ some [] →
      (editBody input message).components = message.components.getD []) := by
  refine ⟨edit_original_events_ok vm f mres extend patchRes input message hat,
          followup_edit_events_ok vm f mres extend patchRes input message hat, ?_, ?_⟩
  · intro h
    simp [editBody, h]
  · intro h
    rcases hc : input.components with _ | l
    · simp [editBody, hc]
    · rcases l with _ | ⟨c, r⟩
      · exact absurd hc h
      · simp [editBody, hc]

theorem edit_components_fallback_witness :
    (editBody w1EmptyInput msg0).components = [] ∧
    (editBody w1Input c2Msg).components = [] :=
  ⟨(edit_components_fallback vmFalse fConst mresErr id mresOk w1EmptyInput msg0 rfl).2.2.1 rfl,
   (edit_components_fallback vmFalse fConst mresErr id mresOk w1Input c2Msg rfl).2.2.2
     (by decide)⟩

/-- C6: `get_original` converts every failure of the underlying fetch into
`none` and never raises; on success it returns the extended message payload. -/
theorem get_original_swallows_failures (extend : Message → Message) :
    (∀ e : TErr, get_original extend (Except.error e) = (none, [NetEvent.getMsg])) ∧
    (∀ m : Message, get_original extend (Except.ok m) = (some (extend m), [NetEvent.getMsg])) :=
  ⟨fun _ => rfl, fun _ => rfl⟩

/-- C7: in the non-attachment path of `edit_original` a failing GET of the
existing message yields result `none` with no PATCH dispatched, while an
error of the PATCH itself propagates to the caller. -/
theorem edit_original_missing_message
    (vm : Option FileVal → Bool) (f : String → List Nat) (mres : Except TErr Message)
    (extend : Message → Message) (input : Payload) (message : Message)
    (hat : hasAttachments input = false) :
    (∀ (e : TErr) (patchRes : Except TErr Message),
      edit_original vm f mres extend (Except.error e) patchRes input
        = ⟨Except.ok none, input, [NetEvent.getMsg]⟩) ∧
    (∀ e : TErr,
      (edit_original vm f mres extend (Except.ok message) (Except.error e) input).result
        = Except.error (Err.transport e)) := by
  constructor
  · intro e patchRes
    unfold edit_original
    rw [hat]
    rfl
  · intro e
    unfold edit_original
    rw [hat]
    rfl

theorem edit_original_missing_message_witness :
    edit_original vmFalse fConst mresErr id (Except.error ⟨3⟩) mresOk w7Input
      = ⟨Except.ok none, w7Input, [NetEvent.getMsg]⟩ :=
  (edit_original_missing_message vmFalse fConst mresErr id w7Input msg0 rfl).1 ⟨3⟩ mresOk

theorem jsOr_cases {α : Type} (a b : Option α) :
    (a.isSome = true → jsOr a b = a) ∧ (a = none → jsOr a b = b) :=
  ⟨jsOr_isSome a b, fun h => by rw [h]; rfl⟩

/-- C2 counterexample: with the embeds key omitted, the PATCH body actually
sent by `followup.edit` holds a single rebuilt embed, not the previously
fetched message's two-embed sequence unchanged. -/
theorem edit_embeds_omitted_cex :
    (followup_edit vmFalse fConst mresErr id (Except.ok c2Msg) mresOk c2Input).events
      = [NetEvent.getMsg, NetEvent.patchMsg (editBody c2Input c2Msg)] ∧
    c2Input.embeds = none ∧
    (editBody c2Input c2Msg).embeds ≠ c2Msg.embeds.getD [] ∧
    (editBody c2Input c2Msg).embeds.length = 1 ∧
    (c2Msg.embeds.getD []).length = 2 := by
  refine ⟨rfl, rfl, ?_, rfl, rfl⟩
  decide

/-- C2 (amended): in the non-attachment path of both edit-style operations an
explicit `embeds: []` clears embeds; with the embeds key omitted the body's
embeds is a one-element sequence holding a rebuilt embed each of whose
sub-fields is taken from the existing message's first embed — not the
existing embeds sequence passed through unchanged. -/
theorem edit_embeds_omitted_amended
    (vm : Option FileVal → Bool) (f : String → List Nat) (mres : Except TErr Message)
    (extend : Message → Message) (patchRes : Except TErr Message)
    (input : Payload) (message : Message)
    (hat : hasAttachments input = false) :
    ((edit_original vm f mres extend (Except.ok message) patchRes input).events
        = [NetEvent.getMsg, NetEvent.patchMsg (editBody input message)]) ∧
    ((followup_edit vm f mres extend (Except.ok message) patchRes input).events
        = [NetEvent.getMsg, NetEvent.patchMsg (editBody input message)]) ∧
    (input.embeds = some [] → (editBody input message).embeds = []) ∧
    (input.embeds = none →
      (editBody input message).embeds
        = [mergeEmbed none (message.embeds.bind List.head?)]) ∧
    (∀ m0 : Option Embed,
      (mergeEmbed none m0).title = m0.bind Embed.title ∧
      (mergeEmbed none m0).description = m0.bind Embed.description ∧
      (mergeEmbed none m0).color = m0.bind Embed.color ∧
      (mergeEmbed none m0).url = m0.bind Embed.url ∧
      (mergeEmbed none m0).timestamp = m0.bind Embed.timestamp ∧
      imageUrl (mergeEmbed none m0) = m0.bind imageUrl ∧
      thumbUrl (mergeEmbed none m0) = m0.bind thumbUrl ∧
      authorName (mergeEmbed none m0) = m0.bind authorName ∧
      authorIcon (mergeEmbed none m0) = m0.bind authorIcon ∧
      authorUrl (mergeEmbed none m0) = m0.bind authorUrl ∧
      footerText (mergeEmbed none m0) = m0.bind footerText ∧
      footerIcon (mergeEmbed none m0) = m0.bind footerIcon ∧
      (mergeEmbed none m0).fields = m0.bind Embed.fields) := by
  refine ⟨edit_original_events_ok vm f mres extend patchRes input message hat,
          followup_edit_events_ok vm f mres extend patchRes input message hat,
          ?_, ?_, ?_⟩
  · intro h
    simp [editBody, h]
  · intro h
    simp [editBody, h]
  · intro m0
    exact ⟨rfl, rfl, rfl, rfl, rfl, rfl, rfl, rfl, rfl, rfl, rfl, rfl, rfl⟩

theorem edit_embeds_omitted_amended_witness :
    (editBody { embeds := some [] } msg0).embeds = [] ∧
    (editBody c2Input c2Msg).embeds
      = [mergeEmbed none (c2Msg.embeds.bind List.head?)] :=
  ⟨(edit_embeds_omitted_amended vmFalse fConst mresErr id mresOk
      { embeds := some [] } msg0 rfl).2.2.1 rfl,
   (edit_embeds_omitted_amended vmFalse fConst mresErr id mresOk
      c2Input c2Msg rfl).2.2.2.1 rfl⟩

/-- C3: when an edit supplies a non-empty embeds array, the PATCH body holds
the single merged embed, in which every sub-field supplied by the caller's
first embed is kept unchanged and every omitted sub-field falls back to the
corresponding sub-field of the existing message's first embed. -/
theorem edit_embed_subfield_merge
    (input : Payload) (message : Message) (e : Embed) (rest : List Embed)
    (hemb : input.embeds = some (e :: rest)) :
    ((editBody input message).embeds
        = [mergeEmbed (some e) (message.embeds.bind List.head?)]) ∧
    (∀ m0 : Option Embed,
      ((e.title.isSome = true → (mergeEmbed (some e) m0).title = e.title) ∧
       (e.title = none → (mergeEmbed (some e) m0).title = m0.bind Embed.title)) ∧
      ((e.description.isSome = true →
          (mergeEmbed (some e) m0).description = e.description) ∧
       (e.description = none →
          (mergeEmbed (some e) m0).description = m0.bind Embed.description)) ∧
      ((e.color.isSome = true → (mergeEmbed (some e) m0).color = e.color) ∧
       (e.color = none → (mergeEmbed (some e) m0).color = m0.bind Embed.color)) ∧
      ((e.url.isSome = true → (mergeEmbed (some e) m0).url = e.url) ∧
       (e.url = none → (mergeEmbed (some e) m0).url = m0.bind Embed.url)) ∧
      ((e.timestamp.isSome = true →
          (mergeEmbed (some e) m0).timestamp = e.timestamp) ∧
       (e.timestamp = none →
          (mergeEmbed (some e) m0).timestamp = m0.bind Embed.timestamp)) ∧
      (((imageUrl e).isSome = true →
          imageUrl (mergeEmbed (some e) m0) = imageUrl e) ∧
       (imageUrl e = none →
          imageUrl (mergeEmbed (some e) m0) = m0.bind imageUrl)) ∧
      (((thumbUrl e).isSome = true →
          thumbUrl (mergeEmbed (some e) m0) = thumbUrl e) ∧
       (thumbUrl e = none →
          thumbUrl (mergeEmbed (some e) m0) = m0.bind thumbUrl)) ∧
      (((authorName e).isSome = true →
          authorName (mergeEmbed (some e) m0) = authorName e) ∧
       (authorName e = none →
          authorName (mergeEmbed (some e) m0) = m0.bind authorName)) ∧
      (((authorIcon e).isSome = true →
          authorIcon (mergeEmbed (some e) m0) = authorIcon e) ∧
       (authorIcon e = none →
          authorIcon (mergeEmbed (some e) m0) = m0.bind authorIcon)) ∧
      (((authorUrl e).isSome = true →
          authorUrl (mergeEmbed (some e) m0) = authorUrl e) ∧
       (authorUrl e = none →
          authorUrl (mergeEmbed (some e) m0) = m0.bind authorUrl)) ∧
      (((footerText e).isSome = true →
          footerText (mergeEmbed (some e) m0) = footerText e) ∧
       (footerText e = none →
          footerText (mergeEmbed (some e) m0) = m0.bind footerText)) ∧
      (((footerIcon e).isSome = true →
          footerIcon (mergeEmbed (some e) m0) = footerIcon e) ∧
       (footerIcon e = none →
          footerIcon (mergeEmbed (some e) m0) = m0.bind footerIcon)) ∧
      ((e.fields.isSome = true → (mergeEmbed (some e) m0).fields = e.fields) ∧
       (e.fields = none →
          (mergeEmbed (some e) m0).fields = m0.bind Embed.fields))) := by
  constructor
  · simp [editBody, hemb]
  · intro m0
    exact ⟨jsOr_cases e.title (m0.bind Embed.title),
           jsOr_cases e.description (m0.bind Embed.description),
           jsOr_cases e.color (m0.bind Embed.color),
           jsOr_cases e.url (m0.bind Embed.url),
           jsOr_cases e.timestamp (m0.bind Embed.timestamp),
           jsOr_cases (imageUrl e) (m0.bind imageUrl),
           jsOr_cases (thumbUrl e) (m0.bind thumbUrl),
           jsOr_cases (authorName e) (m0.bind authorName),
           jsOr_cases (authorIcon e) (m0.bind authorIcon),
           jsOr_cases (authorUrl e) (m0.bind authorUrl),
           jsOr_cases (footerText e) (m0.bind footerText),
           jsOr_cases (footerIcon e) (m0.bind footerIcon),
           jsOr_cases e.fields (m0.bind Embed.fields)⟩

theorem edit_embed_subfield_merge_witness :
    (editBody c3Input msg3).embeds
      = [mergeEmbed (some e3) (msg3.embeds.bind List.head?)] ∧
    (mergeEmbed (some e3) (msg3.embeds.bind List.head?)).title = e3.title ∧
    (mergeEmbed (some e3) (msg3.embeds.bind List.head?)).description
      = (msg3.embeds.bind List.head?).bind Embed.description := by
  have h := edit_embed_subfield_merge c3Input msg3 e3 [] rfl
  exact ⟨h.1, (h.2 (msg3.embeds.bind List.head?)).1.1 rfl,
         (h.2 (msg3.embeds.bind List.head?)).2.1.2 rfl⟩

theorem procAtt_ok_eq (vm : Option FileVal → Bool) (f : String → List Nat)
    (a a1 : Attachment) (evs : List NetEvent)
    (h : procAtt vm f a = (Except.ok a1, evs)) : a1 = procOk vm f a := by
  unfold procAtt at h
  cases hx : invalidAtt a with
  | true => rw [hx] at h; simp at h
  | false =>
    rw [hx] at h
    simp only [Bool.false_eq_true, if_false] at h
    cases hv : vm a.file with
    | true =>
      rw [hv] at h
      simp only [if_true] at h
      cases hf : a.file with
      | none =>
        rw [hf] at h
        simp at h
        rcases h with ⟨h1, h2⟩
        subst h1
        simp [procOk, hv, hf]
      | some fv =>
        cases fv with
        | buf d =>
          rw [hf] at h
          simp at h
          rcases h with ⟨h1, h2⟩
          subst h1
          simp [procOk, hv, hf]
        | str s_ =>
          rw [hf] at h
          simp at h
          rcases h with ⟨h1, h2⟩
          subst h1
          simp only [procOk]
          rw [hv, hf]
          rfl
    | false =>
      rw [hv] at h
      simp only [Bool.false_eq_true, if_false] at h
      cases hf : a.file with
      | none => rw [hf] at h; simp at h
      | some fv =>
        cases fv with
        | buf d =>
          rw [hf] at h
          simp at h
          rcases h with ⟨h1, h2⟩
          subst h1
          simp [procOk, hv, hf]
        | str s_ => rw [hf] at h; simp at h

theorem processAttachments_ok_map (vm : Option FileVal → Bool) (f : String → List Nat) :
    ∀ (l l1 : List Attachment) (evs : List NetEvent),
      processAttachments vm f l = (Except.ok l1, evs) → l1 = l.map (procOk vm f) := by
  intro l
  induction l with
  | nil =>
    intro l1 evs h
    unfold processAttachments at h
    simp at h
    simp [h.1]
  | cons a rest ih =>
    intro l1 evs h
    unfold processAttachments at h
    rcases hp : procAtt vm f a with ⟨r, evs0⟩
    rw [hp] at h
    cases r with
    | error e => simp at h
    | ok a1 =>
      rcases hq : processAttachments vm f rest with ⟨r2, evs2⟩
      rw [hq] at h
      cases r2 with
      | error e => simp at h
      | ok rest1 =>
        simp at h
        rw [List.map_cons, ← h.1, ← procAtt_ok_eq vm f a a1 evs0 hp,
            ← ih rest1 evs2 hq]

theorem sendAttachment_ok_inv (vm : Option FileVal → Bool) (f : String → List Nat)
    (mres : Except TErr Message) (sender : String) (params : Payload)
    (tp : Option Nat) (fl : Nat) (m : Message) (proc : List Attachment)
    (fp : Payload) (req : MultipartReq) (evs : List NetEvent)
    (h : sendAttachmentModel vm f mres sender params tp fl = (SAOutcome.ok m proc fp req, evs)) :
    fp = finalParamsFor params fl proc ∧
    mres = Except.ok m ∧
    (∃ atts evs1, params.attachments = some atts ∧
      processAttachments vm f atts = (Except.ok proc, evs1)) := by
  unfold sendAttachmentModel at h
  split at h
  · simp at h
  · rename_i atts hA
    split at h
    · simp at h
    · rename_i processed evs1 hP
      split at h
      · simp at h
      · rename_i hm
        simp at h
        rcases h with ⟨⟨hm2, hproc, hfp, hreq⟩, hevs⟩
        subst hproc
        exact ⟨hfp.symm, by rw [hm2], atts, evs1, hA, hP⟩

theorem mapIdxFrom_getElem? {α β : Type} (g : Nat → α → β) :
    ∀ (l : List α) (n j : Nat), (mapIdxFrom n g l).get? j = (l.get? j).map (g (n + j)) := by
  intro l
  induction l with
  | nil => intro n j; simp [mapIdxFrom]
  | cons a r ih =>
    intro n j
    cases j with
    | zero => simp [mapIdxFrom]
    | succ j =>
      simp only [mapIdxFrom, List.get?]
      rw [ih (n + 1) j]
      have h3 : n + 1 + j = n + (j + 1) := by omega
      rw [h3]

/-- C4 counterexample: with `ephemeral = true` and no attachments,
`followup.edit` sends a PATCH body that carries no flags value at all, so the
flags value placed in the sent body is neither 64 nor 0. -/
theorem ephemeral_flags_cex :
    truthy c4Input.ephemeral = true ∧
    hasAttachments c4Input = false ∧
    (followup_edit vmFalse fConst mresErr id (Except.ok msg0) mresOk c4Input).events
      = [NetEvent.getMsg, NetEvent.patchMsg (editBody c4Input msg0)] ∧
    (editBody c4Input msg0).flags = none ∧
    (editBody c4Input msg0).flags ≠ some 64 := by
  refine ⟨rfl, rfl, rfl, rfl, ?_⟩
  decide

/-- C4 (amended): `callback.reply`, `callback.component_update` and
`followup.create` place `flags = 64` (ephemeral truthy) or `0` in the sent
body, overwriting any caller-supplied flags, and the multipart path writes the
same flags value into its params; however the non-attachment PATCH body of
`followup.edit` carries no flags field at all. -/
theorem ephemeral_flags_amended
    (vm : Option FileVal → Bool) (f : String → List Nat) (mres : Except TErr Message)
    (resp : HttpResp) (extend : Message → Message)
    (postRes patchRes : Except TErr Message) (input : Payload) (message : Message)
    (hat : hasAttachments input = false) :
    ((withFlags input).flags = some (if truthy input.ephemeral then 64 else 0)) ∧
    ((reply vm f mres resp input).events = [NetEvent.postCallback 4 (withFlags input)]) ∧
    ((component_update vm f mres resp input).events
        = [NetEvent.postCallback 7 (withFlags input)]) ∧
    ((followup_create vm f mres extend postRes input).events
        = [NetEvent.postFollowup
            (createBody (applyEmbedFix input) (if truthy input.ephemeral then 64 else 0))]) ∧
    ((createBody (applyEmbedFix input) (if truthy input.ephemeral then 64 else 0)).flags
        = (if truthy input.ephemeral then 64 else 0)) ∧
    ((followup_edit vm f mres extend (Except.ok message) patchRes input).events
        = [NetEvent.getMsg, NetEvent.patchMsg (editBody input message)]) ∧
    ((editBody input message).flags = none) ∧
    (∀ (sender : String) (params : Payload) (tp : Option Nat) (fl : Nat)
        (m : Message) (proc : List Attachment) (fp : Payload) (req : MultipartReq)
        (evs : List NetEvent),
      sendAttachmentModel vm f mres sender params tp fl = (SAOutcome.ok m proc fp req, evs) →
      fp.flags = some fl) := by
  have hat1 : hasAttachments (withFlags input) = false := hat
  refine ⟨rfl, ?_, ?_, ?_, rfl, followup_edit_events_ok vm f mres extend patchRes input message hat,
          rfl, ?_⟩
  · unfold reply
    rw [hat1]
    rfl
  · unfold component_update
    rw [hat1]
    rfl
  · unfold followup_create
    rw [hat]
    rfl
  · intro sender params tp fl m proc fp req evs h
    rw [(sendAttachment_ok_inv vm f mres sender params tp fl m proc fp req evs h).1]
    rfl

theorem ephemeral_flags_amended_witness :
    (withFlags c4Input).flags = some 64 ∧
    (reply vmFalse fConst mresErr resp204 c4Input).events
      = [NetEvent.postCallback 4 (withFlags c4Input)] ∧
    (editBody c4Input msg0).flags = none :=
  ⟨(ephemeral_flags_amended vmFalse fConst mresErr resp204 id mresOk mresOk
      c4Input msg0 rfl).1,
   (ephemeral_flags_amended vmFalse fConst mresErr resp204 id mresOk mresOk
      c4Input msg0 rfl).2.1,
   (ephemeral_flags_amended vmFalse fConst mresErr resp204 id mresOk mresOk
      c4Input msg0 rfl).2.2.2.2.2.2.1⟩

theorem reply_events_noatt (vm : Option FileVal → Bool) (f : String → List Nat)
    (mres : Except TErr Message) (resp : HttpResp) (input : Payload)
    (hat : hasAttachments input = false) :
    (reply vm f mres resp input).events = [NetEvent.postCallback 4 (withFlags input)] := by
  have hat1 : hasAttachments (withFlags input) = false := hat
  unfold reply
  rw [hat1]
  rfl

theorem footerFix_author (e : Embed) : (footerFix e).author = e.author := by
  rcases hfo : e.footer with _ | fo
  · simp [footerFix, hfo]
  · by_cases hc : (strTruthy fo.icon_url && !strTruthy fo.text) = true
    · simp [footerFix, hfo, hc]
    · simp [footerFix, hfo, hc]

theorem authorFix_footer (e : Embed) : (authorFix e).footer = e.footer := by
  rcases hau : e.author with _ | au
  · simp [authorFix, hau]
  · by_cases hc : (strTruthy au.icon_url && !strTruthy au.name) = true
    · simp [authorFix, hau, hc]
    · simp [authorFix, hau, hc]

theorem footerFix_text (e : Embed) (fo : EmbedFooter) (hfo : e.footer = some fo)
    (hico : strTruthy fo.icon_url = true) (htext : strTruthy fo.text = false) :
    footerText (footerFix e) = some zwsp := by
  simp [footerFix, footerText, hfo, hico, htext]

theorem authorFix_name (e : Embed) (au : EmbedAuthor) (hau : e.author = some au)
    (hico : strTruthy au.icon_url = true) (hname : strTruthy au.name = false) :
    authorName (authorFix e) = some zwsp := by
  simp [authorFix, authorName, hau, hico, hname]

/-- C8 counterexample: `callback.reply` sends its embeds unchanged — an embed
with an icon-only footer keeps its absent footer text instead of receiving
the zero-width-space placeholder. -/
theorem reply_placeholder_cex :
    (reply vmFalse fConst mresErr resp204 c8Input).events
      = [NetEvent.postCallback 4 (withFlags c8Input)] ∧
    (withFlags c8Input).embeds = some [c8Embed] ∧
    strTruthy (footerIcon c8Embed) = true ∧
    footerText c8Embed = none ∧
    footerText c8Embed ≠ some zwsp := by
  refine ⟨rfl, rfl, rfl, rfl, ?_⟩
  decide

/-- C8 (amended): in the non-attachment path `followup.create` rewrites every
embed before sending: a footer icon with empty or missing footer text gets
the zero-width-space placeholder as text, and likewise an author icon with
empty or missing author name; `callback.reply` performs no such rewrite and
sends its embeds exactly as supplied. -/
theorem create_placeholder_amended
    (vm : Option FileVal → Bool) (f : String → List Nat) (mres : Except TErr Message)
    (resp : HttpResp) (extend : Message → Message) (postRes : Except TErr Message)
    (input : Payload) (e : Embed) (rest : List Embed)
    (hat : hasAttachments input = false) (hemb : input.embeds = some (e :: rest)) :
    ((followup_create vm f mres extend postRes input).events
        = [NetEvent.postFollowup
            (createBody (applyEmbedFix input) (if truthy input.ephemeral then 64 else 0))]) ∧
    ((createBody (applyEmbedFix input) (if truthy input.ephemeral then 64 else 0)).embeds
        = (e :: rest).map fixEmbed) ∧
    (∀ e1 : Embed, strTruthy (footerIcon e1) = true → strTruthy (footerText e1) = false →
      footerText (fixEmbed e1) = some zwsp) ∧
    (∀ e1 : Embed, strTruthy (authorIcon e1) = true → strTruthy (authorName e1) = false →
      authorName (fixEmbed e1) = some zwsp) ∧
    ((reply vm f mres resp input).events = [NetEvent.postCallback 4 (withFlags input)] ∧
      (withFlags input).embeds = input.embeds) := by
  refine ⟨?_, ?_, ?_, ?_, reply_events_noatt vm f mres resp input hat, rfl⟩
  · unfold followup_create
    rw [hat]
    rfl
  · simp [applyEmbedFix, createBody, hemb]
  · intro e1 hico htext
    rcases hfo : e1.footer with _ | fo
    · simp [footerIcon, hfo, strTruthy] at hico
    · have hico2 : strTruthy fo.icon_url = true := by
        simpa [footerIcon, hfo] using hico
      have htext2 : strTruthy fo.text = false := by
        simpa [footerText, hfo] using htext
      unfold fixEmbed
      have hpres : footerText (authorFix (footerFix e1)) = footerText (footerFix e1) := by
        simp [footerText, authorFix_footer]
      rw [hpres]
      exact footerFix_text e1 fo hfo hico2 htext2
  · intro e1 hico hname
    rcases hau : e1.author with _ | au
    · simp [authorIcon, hau, strTruthy] at hico
    · have hico2 : strTruthy au.icon_url = true := by
        simpa [authorIcon, hau] using hico
      have hname2 : strTruthy au.name = false := by
        simpa [authorName, hau] using hname
      unfold fixEmbed
      exact authorFix_name (footerFix e1) au (by rw [footerFix_author, hau]) hico2 hname2

theorem create_placeholder_amended_witness :
    (createBody (applyEmbedFix c8CreateInput) 0).embeds = [fixEmbed c8Embed] ∧
    footerText (fixEmbed c8Embed) = some zwsp :=
  ⟨(create_placeholder_amended vmFalse fConst mresErr resp204 id mresOk
      c8CreateInput c8Embed [] rfl rfl).2.1,
   (create_placeholder_amended vmFalse fConst mresErr resp204 id mresOk
      c8CreateInput c8Embed [] rfl rfl).2.2.1 c8Embed rfl rfl⟩

/-- C9 counterexample: the data object actually sent by
`reply(params, {ephemeral: true, content: 'hi'})` still contains the
`ephemeral: true` key, so the body is not exactly
`{type: 4, data: {content: 'hi', flags: 64}}`. -/
theorem reply_scenario_cex :
    (reply vmFalse fConst mresErr resp204 c9Input).events
      = [NetEvent.postCallback 4 c9Sent] ∧
    c9Sent.ephemeral = some true ∧
    c9Claimed.ephemeral = none ∧
    c9Sent ≠ c9Claimed := by
  refine ⟨rfl, rfl, rfl, ?_⟩
  decide

/-- C9 (amended): `reply(params, {ephemeral: true, content: 'hi'})` sends the
body `{type: 4, data: {ephemeral: true, content: 'hi', flags: 64}}` — flags
64 is written into the data but the ephemeral key is retained — and on a 204
response without `return_date` the call returns `true`. -/
theorem reply_scenario_amended :
    (reply vmFalse fConst mresErr resp204 c9Input).events
      = [NetEvent.postCallback 4 c9Sent] ∧
    c9Sent = { c9Input with flags := some 64 } ∧
    (reply vmFalse fConst mresErr resp204 c9Input).result = Except.ok ReplyRet.rtrue :=
  ⟨rfl, rfl, rfl⟩

/-- C10: `callback.reply` and `callback.component_update` overwrite the
caller's `input.flags` in place before dispatch whatever its prior value,
and a successful `sendAttachment` leaves the caller's params object with the
attachments array replaced by `{id: index, filename, description}` reference
records, each processed attachment having had a valid-media string file
replaced in place by the fetched binary buffer. -/
theorem mutation_effects
    (vm : Option FileVal → Bool) (f : String → List Nat) (mres : Except TErr Message)
    (resp : HttpResp) (input : Payload) :
    ((reply vm f mres resp input).finalInput.flags
        = some (if truthy input.ephemeral then 64 else 0)) ∧
    ((component_update vm f mres resp input).finalInput.flags
        = some (if truthy input.ephemeral then 64 else 0)) ∧
    (∀ (sender : String) (params : Payload) (tp : Option Nat) (fl : Nat)
        (atts : List Attachment) (m : Message) (proc : List Attachment)
        (fp : Payload) (req : MultipartReq) (evs : List NetEvent),
      params.attachments = some atts →
      sendAttachmentModel vm f mres sender params tp fl = (SAOutcome.ok m proc fp req, evs) →
      fp.attachments = some (refRecords proc) ∧
      proc = atts.map (procOk vm f) ∧
      (∀ (i : Nat) (a : Attachment) (s : String),
        atts.get? i = some a → vm a.file = true → a.file = some (FileVal.str s) →
          proc.get? i = some { a with file := some (FileVal.buf (f s)) }) ∧
      (∀ (j : Nat) (a : Attachment), proc.get? j = some a →
        (refRecords proc).get? j = some (refRecord j a) ∧
        refRecord j a = { id := some j, file := none, url := none, filename := a.filename, description := some (a.description.getD "") })) := by
  refine ⟨?_, ?_, ?_⟩
  · unfold reply
    cases hA : hasAttachments (withFlags input) with
    | false => rfl
    | true =>
      rcases hs : sendAttachmentModel vm f mres "data" (withFlags input) (some 4)
          ((withFlags input).flags.getD 0) with ⟨o, evs⟩
      cases o with
      | nullNoAttach => rfl
      | err e => rfl
      | ok m proc fp req =>
        show fp.flags = some (if truthy input.ephemeral then 64 else 0)
        rw [(sendAttachment_ok_inv vm f mres "data" (withFlags input) (some 4)
          ((withFlags input).flags.getD 0) m proc fp req evs hs).1]
        rfl
  · unfold component_update
    cases hA : hasAttachments (withFlags input) with
    | false => rfl
    | true =>
      rcases hs : sendAttachmentModel vm f mres "data" (withFlags input) (some 7)
          ((withFlags input).flags.getD 0) with ⟨o, evs⟩
      cases o with
      | nullNoAttach => rfl
      | err e => rfl
      | ok m proc fp req =>
        show fp.flags = some (if truthy input.ephemeral then 64 else 0)
        rw [(sendAttachment_ok_inv vm f mres "data" (withFlags input) (some 7)
          ((withFlags input).flags.getD 0) m proc fp req evs hs).1]
        rfl
  · intro sender params tp fl atts m proc fp req evs hatt hsend
    have inv := sendAttachment_ok_inv vm f mres sender params tp fl m proc fp req evs hsend
    rcases inv.2.2 with ⟨atts2, evs1, hA2, hP2⟩
    rw [hatt] at hA2
    have hA3 : atts2 = atts := by
      simpa using hA2.symm
    subst hA3
    have hmap : proc = atts2.map (procOk vm f) :=
      processAttachments_ok_map vm f atts2 proc evs1 hP2
    refine ⟨by rw [inv.1]; rfl, hmap, ?_, ?_⟩
    · intro i a s ha hv hf
      rw [hmap, List.get?_map, ha]
      simp only [Option.map_some']
      simp only [procOk]
      rw [hv, hf]
      rfl
    · intro j a hj
      constructor
      · show (mapIdxFrom 0 refRecord proc).get? j = _
        rw [mapIdxFrom_getElem?, hj]
        simp
      · rfl

theorem mutation_effects_witness :
    (reply vmStr fConst mresOk resp204 c9Input).finalInput.flags = some 64 ∧
    c10Fp.attachments = some (refRecords c10Proc) ∧
    c10Proc = [c10Att].map (procOk vmStr fConst) := by
  have h := mutation_effects vmStr fConst mresOk resp204 c9Input
  have h2 := h.2.2 "body" c10Params none 5 [c10Att] msg0 c10Proc c10Fp c10Req
      [NetEvent.mediaFetch "u", NetEvent.multipart c10Req] rfl (by decide)
  exact ⟨h.1, h2.1, h2.2.1⟩

end Interactions
